import Mathlib

/-!
# A shallow embedding of `src/websockets/webs.cpp`

The program relays text between a console and a libwebsockets context.  It has
three threads of control: `main` (the console input loop), the lambda stored in
`websocket_runner` (the service loop) and the lambda stored in
`message_printer` (the console bridge), plus the signal handler
`sigint_handler`.

Modelling conventions.

* The global variables of the translation unit, the two console streams that
  the program writes, and a trace of the library and thread calls it makes are
  gathered in one record, `State`, that is passed explicitly.
* A `std::queue<std::string>` is a `List String`, front first: `push` appends at
  the end and `front`/`pop` take the head.
* Null pointers are `none` (`Pvo.null` for the vhost-option chain).
* `lws_cmdline_option(argc, argv, name)` belongs to libwebsockets; the command
  line enters the model as the function `cmdline : String → Option String`
  giving, for every option name, the pointer that call returns.
* `lws_create_context` belongs to libwebsockets as well; whether it returns a
  context is the Boolean input `context`.
* What a thread observes of the others is an explicit input: the service loop
  receives the value of `interrupted` it reads at each evaluation of its loop
  condition and the status each `lws_service` call returns; `main` receives the
  change `env` that the other threads and the signal handler made to the shared
  state by the time `websocket_runner.join()` returns.
-/

namespace Webs

/-! ## Library constants (libwebsockets headers) -/

/-- Log level bit `LLL_ERR` of libwebsockets. -/
def LLL_ERR : Nat := 1 <<< 0
/-- Log level bit `LLL_WARN` of libwebsockets. -/
def LLL_WARN : Nat := 1 <<< 1
/-- Log level bit `LLL_NOTICE` of libwebsockets. -/
def LLL_NOTICE : Nat := 1 <<< 2
/-- Log level bit `LLL_USER` of libwebsockets. -/
def LLL_USER : Nat := 1 <<< 10
/-- Context option bit `LWS_SERVER_OPTION_VALIDATE_UTF8` of libwebsockets. -/
def LWS_SERVER_OPTION_VALIDATE_UTF8 : Nat := 1 <<< 8
/-- Context option bit
`LWS_SERVER_OPTION_HTTP_HEADERS_SECURITY_BEST_PRACTICES_ENFORCE` of libwebsockets. -/
def LWS_SERVER_OPTION_HTTP_HEADERS_SECURITY_BEST_PRACTICES_ENFORCE : Nat := 1 <<< 28
/-- Signal number `SIGINT`. -/
def SIGINT : Int := 2

/-! ## Data model -/

/-- One element of a `lws_protocols` table, with the four members the source
initialises: `{ name, callback, per_session_data_size, rx_buffer_size }`. -/
structure lws_protocols where
  name : Option String
  callback : Option String
  per_session_data_size : Nat
  rx_buffer_size : Nat
deriving DecidableEq, Repr

/-- One element of a `lws_extension` table: `{ name, callback, client_offer }`. -/
structure lws_extension where
  name : Option String
  callback : Option String
  client_offer : Option String
deriving DecidableEq, Repr

/-- The `value` member of a `lws_protocol_vhost_options`: a string literal, or
the address of one of the two global `int`s reinterpreted as `char const*`. -/
inductive PvoValue where
  | text (s : String)
  | addr_options
  | addr_interrupted
deriving DecidableEq, Repr

/-- A `lws_protocol_vhost_options` node `{ next, options, name, value }`, the
pointers followed; `null` is `nullptr`. -/
inductive Pvo where
  | null
  | node (next : Pvo) (options : Pvo) (name : String) (value : PvoValue)
deriving DecidableEq, Repr

/-- The members of `lws_context_creation_info` that `main` sets after the
`memset`; `extensions = none` is the null pointer the `memset` leaves. -/
structure lws_context_creation_info where
  port : Int
  protocols : List lws_protocols
  pvo : Pvo
  extensions : Option (List lws_extension)
  pt_serv_buf_size : Nat
  options : Nat
deriving DecidableEq, Repr

/-- The two `std::thread` objects of `main`. -/
inductive Thread where
  | websocket_runner
  | message_printer
deriving DecidableEq, Repr

/-- The calls a thread makes on the library, on the threads and on the outbound
queue, in program order. -/
inductive Event where
  | signal (signum : Int)
  | lws_set_log_level (logs : Int)
  | lwsl_user (msg : String)
  | lws_create_context (info : lws_context_creation_info)
  | thread_start (t : Thread)
  | to_client_push (line : String)
  | lws_callback_on_writable_all_protocol
  | lws_service (timeout_ms : Nat)
  | thread_join (t : Thread)
  | lws_context_destroy
deriving DecidableEq, Repr

/-- The global variables of the translation unit (lines 17-35), the text written
to `std::cout` and `std::cerr`, and the trace of calls. -/
structure State where
  from_client : List String
  to_client : List String
  done_with_demo : Bool
  interrupted : Int
  options : Int
  cout : List String
  cerr : List String
  trace : List Event
deriving DecidableEq, Repr

/-- The state at program start: the initialisers of lines 17-35. -/
def State.init : State :=
  { from_client := [], to_client := [], done_with_demo := false,
    interrupted := 0, options := 0, cout := [], cerr := [], trace := [] }

/-! ## Static tables (lines 29-67) -/

/-- Modelled from the spec: the macro `LWS_PLUGIN_PROTOCOL_MINIMAL_SERVER_ECHO`
is defined in `protocol_lws_minimal_server_echo.cpp`, which is not among the
sources; following "declares exactly one application sub-protocol" it stands for
the one table entry of that sub-protocol, named as in the `pvo` table.  The two
sizes of the entry are not fixed by the spec and take part in no property. -/
def LWS_PLUGIN_PROTOCOL_MINIMAL_SERVER_ECHO : lws_protocols :=
  { name := some "lws-minimal-server-echo",
    callback := some "callback_minimal_server_echo",
    per_session_data_size := 0, rx_buffer_size := 1024 }

/-- The table `protocols` (lines 29-32). -/
def protocols : List lws_protocols :=
  [ LWS_PLUGIN_PROTOCOL_MINIMAL_SERVER_ECHO
  , { name := none, callback := none, per_session_data_size := 0, rx_buffer_size := 0 } ]

/-- The node `pvo_options` (lines 37-42). -/
def pvo_options : Pvo := .node .null .null "options" .addr_options

/-- The node `pvo_interrupted` (lines 44-49). -/
def pvo_interrupted : Pvo := .node pvo_options .null "interrupted" .addr_interrupted

/-- The node `pvo` (lines 51-56). -/
def pvo : Pvo := .node .null pvo_interrupted "lws-minimal-server-echo" (.text "")

/-- The table `extensions` (lines 58-67); the three adjacent string literals of
the third member are one string. -/
def extensions : List lws_extension :=
  [ { name := some "permessage-deflate"
    , callback := some "lws_extension_callback_pm_deflate"
    , client_offer := some ("permessage-deflate" ++ "; client_no_context_takeover"
        ++ "; client_max_window_bits") }
  , { name := none, callback := none, client_offer := none } ]

/-- The `int` a vhost-option value points to, read in state `s`; a string
literal points to no `int`. -/
def PvoValue.deref (s : State) : PvoValue → Option Int
  | .text _ => none
  | .addr_options => some s.options
  | .addr_interrupted => some s.interrupted

/-- The `value` member of a node. -/
def Pvo.value : Pvo → Option PvoValue
  | .null => none
  | .node _ _ _ v => some v

/-- The sub-protocols a null-terminated protocol table declares: the entries in
front of the first one whose `name` is null. -/
def declared_protocols (table : List lws_protocols) : List lws_protocols :=
  table.takeWhile (fun p => p.name.isSome)

/-- The extensions a context advertises: none for a null `extensions` pointer,
otherwise the entries in front of the first one whose `name` is null. -/
def advertised_extensions : Option (List lws_extension) → List lws_extension
  | none => []
  | some table => table.takeWhile (fun e => e.name.isSome)

/-! ## `atoi` -/

/-- The C `isspace` in the "C" locale. -/
def isspace (c : Char) : Bool :=
  c = ' ' || c = '\t' || c = '\n' || c = '\x0b' || c = '\x0c' || c = '\r'

/-- The digits loop of `atoi`: accumulate decimal digits, stop at the first
other character. -/
def atoi_digits : List Char → Nat → Nat
  | [], acc => acc
  | c :: cs, acc => if c.isDigit then atoi_digits cs (10 * acc + (c.toNat - '0'.toNat)) else acc

/-- The sign and digits of `atoi`, after the leading white space. -/
def atoi_signed : List Char → Int
  | '-' :: cs => - (atoi_digits cs 0 : Int)
  | '+' :: cs => (atoi_digits cs 0 : Int)
  | cs => (atoi_digits cs 0 : Int)

/-- The saturation of `strtol` on a 64-bit `long`: a value above `LONG_MAX` reads
as `LONG_MAX` and one below `LONG_MIN` as `LONG_MIN`. -/
def strtol_saturate (v : Int) : Int :=
  if v > 9223372036854775807 then 9223372036854775807
  else if v < -9223372036854775808 then -9223372036854775808
  else v

/-- The conversion of a `long` to the 32-bit `int`: reduction modulo `2^32` into
the range from `-2^31` to `2^31 - 1`. -/
def long_to_int (v : Int) : Int :=
  (v + 2147483648) % 4294967296 - 2147483648

/-- The C library function `atoi`, as the C library defines it,
`(int) strtol(p, NULL, 10)`: leading white space, an optional sign, decimal
digits, saturated to a `long` and converted to the 32-bit `int`. -/
def atoi (p : String) : Int :=
  long_to_int (strtol_saturate (atoi_signed (p.toList.dropWhile isspace)))

/-! ## The signal handler (lines 69-71) -/

/-- The function `sigint_handler`: `interrupted = 1`, whatever the signal. -/
def sigint_handler (_sig : Int) (s : State) : State :=
  { s with interrupted := 1 }

/-! ## The service loop (lines 117-122) -/

/-- The loop condition of the service loop: `n >= 0 && !interrupted`. -/
def run_condition (n : Int) (interrupted : Int) : Bool :=
  decide (n ≥ 0) && !(decide (interrupted ≠ 0))

/-- The `while` loop of `websocket_runner`, entered for the `k`-th time (counting
from 0) with the local `n`.  `interrupted k` is the value of the global flag
read by the `k`-th evaluation of the loop condition and `lws_service k` the
status the `k`-th call `lws_service(context, 1000)` returns.  The result is the
list of calls made from here on and the last value of `n`; `none` when `fuel`
iterations do not reach the end of the loop. -/
def websocket_runner_loop (interrupted : Nat → Int) (lws_service : Nat → Int) :
    Nat → Nat → Int → Option (List Event × Int)
  | 0, _, _ => none
  | fuel + 1, k, n =>
    if run_condition n (interrupted k) then
      match websocket_runner_loop interrupted lws_service fuel (k + 1) (lws_service k) with
      | some (calls, last) => some (Event.lws_service 1000 :: calls, last)
      | none => none
    else
      some ([], n)

/-- The body of the thread `websocket_runner`: `auto n = int{0}` and the loop. -/
def websocket_runner (interrupted : Nat → Int) (lws_service : Nat → Int) (fuel : Nat) :
    Option (List Event × Int) :=
  websocket_runner_loop interrupted lws_service fuel 0 0

/-- The status the service loop holds in `n` when it evaluates its condition for
the `k`-th time: the initial 0, then the status of the previous tick. -/
def previous_status (lws_service : Nat → Int) : Nat → Int
  | 0 => 0
  | k + 1 => lws_service k

/-! ## The console bridge (lines 123-131) -/

/-- The body of the thread `message_printer`; the initial sleep changes no
state.  Under the lock: if the inbound queue is not empty, move out its front,
pop it and write `"> " + message + "\n"` to `std::cerr`. -/
def message_printer (s : State) : State :=
  match s.from_client with
  | [] => s
  | message :: rest =>
    { s with from_client := rest, cerr := s.cerr ++ ["> " ++ message ++ "\n"] }

/-! ## `main` (lines 74-156) -/

/-- The locals of `main` that are live after line 109. -/
structure Locals where
  port : Nat
  options : Int
  info : lws_context_creation_info
deriving DecidableEq, Repr

/-- Lines 75-109 of `main`: install the handler, set the log level, read the
port, the local `options` (which hides the global of the same name) and fill in
`info`. -/
def main_init (cmdline : String → Option String) (s : State) : State × Locals :=
  let s := { s with trace := s.trace ++ [Event.signal SIGINT] }
  -- lines 77-85
  let logs : Int := ((LLL_USER ||| LLL_ERR ||| LLL_WARN ||| LLL_NOTICE : Nat) : Int)
  let logs : Int := match cmdline "-p" with
    | some p => atoi p
    | none => logs
  let s := { s with trace := s.trace ++
    [ Event.lws_set_log_level logs
    , Event.lwsl_user
        "LWS minimal ws client echo + permessage-deflate + multifragment bulk message\n"
    , Event.lwsl_user
        "    lws-minimal-ws-client-echo [-n (no exts)] [-p <port>] [-o (once)]\n" ] }
  -- lines 87-90: `uint16_t port`
  let port : Nat := match cmdline "-p" with
    | some p => (atoi p % 65536).toNat
    | none => 0
  -- lines 92-95: the local `options`
  let options : Int := 0
  let options : Int := match cmdline "-o" with
    | some _ => Int.lor options 1
    | none => options
  -- lines 97-109
  let info : lws_context_creation_info :=
    { port := port
    , protocols := protocols
    , pvo := pvo
    , extensions := match cmdline "-n" with
        | some _ => none
        | none => some extensions
    , pt_serv_buf_size := 32 * 1024
    , options := LWS_SERVER_OPTION_VALIDATE_UTF8
        ||| LWS_SERVER_OPTION_HTTP_HEADERS_SECURITY_BEST_PRACTICES_ENFORCE }
  (s, { port := port, options := options, info := info })

/-- The console input loop (lines 133-145) on the lines still to be read from
`std::cin`; at end of input `std::getline` leaves `line` empty.  Returns the
state and the input left unread. -/
def console_loop : List String → State → State × List String
  | [], s => ({ s with cout := s.cout ++ [": "] }, [])
  | line :: rest, s =>
    let s := { s with cout := s.cout ++ [": "] }
    if line.length = 0 then
      (s, rest)
    else
      console_loop rest
        { s with to_client := s.to_client ++ [line]
               , trace := s.trace ++
                   [Event.to_client_push line, Event.lws_callback_on_writable_all_protocol] }

/-- Lines 75-146 of `main`: everything up to the point where it waits in
`websocket_runner.join()`.  The second component is `some 1` when `main` has
returned at line 114 and `none` when it has reached line 147. -/
def main_until_join (cmdline : String → Option String) (context : Bool)
    (cin : List String) (s : State) : State × Option Int :=
  let (s, l) := main_init cmdline s
  let s := { s with trace := s.trace ++ [Event.lws_create_context l.info] }
  if !context then
    ({ s with cerr := s.cerr ++ ["lws init failed\n"] }, some 1)
  else
    let s := { s with trace := s.trace ++
      [Event.thread_start Thread.websocket_runner, Event.thread_start Thread.message_printer] }
    ((console_loop cin s).1, none)

/-- The value of the `return` statement of line 155, `(interrupted != 2)`
converted to `int`. -/
def exit_status (s : State) : Int :=
  if s.interrupted ≠ 2 then 1 else 0

/-- Lines 147-155 of `main`, from the return of `websocket_runner.join()` on. -/
def main_after_join (s : State) : State × Int :=
  let s := { s with trace := s.trace ++ [Event.thread_join Thread.websocket_runner] }
  let s := { s with done_with_demo := true }
  let s := { s with trace := s.trace ++
    [Event.thread_join Thread.message_printer, Event.lws_context_destroy] }
  let s := { s with cerr := s.cerr ++
    ["exiting: ", (if s.interrupted = 2 then "ok" else "failed"), "\n"] }
  (s, exit_status s)

/-- The function `main`.  `env` is what the other threads and the signal handler
have done to the shared state when `websocket_runner.join()` returns. -/
def main (cmdline : String → Option String) (context : Bool) (cin : List String)
    (env : State → State) (s : State) : State × Int :=
  match main_until_join cmdline context cin s with
  | (s, some status) => (s, status)
  | (s, none) => main_after_join (env s)

/-! ## Vocabulary of the properties -/

/-- The lines of the console input in front of the first empty one. -/
def lines_before_empty (cin : List String) : List String :=
  cin.takeWhile (fun line => decide (line.length ≠ 0))

/-- The input left unread once the first empty line has been consumed. -/
def lines_after_empty (cin : List String) : List String :=
  (cin.dropWhile (fun line => decide (line.length ≠ 0))).tail

/-- One enqueue on `to_client` followed by one wake of the service loop, for
each of the given lines in order. -/
def forwarded_calls (lines : List String) : List Event :=
  lines.flatMap
    (fun line => [Event.to_client_push line, Event.lws_callback_on_writable_all_protocol])

/-- The log levels passed to `lws_set_log_level` in a trace, in order. -/
def log_levels : List Event → List Int
  | [] => []
  | Event.lws_set_log_level logs :: rest => logs :: log_levels rest
  | _ :: rest => log_levels rest

/-- The threads started in a trace, in order. -/
def started_threads : List Event → List Thread
  | [] => []
  | Event.thread_start t :: rest => t :: started_threads rest
  | _ :: rest => started_threads rest

/-- The default log level of line 78. -/
def default_log_level : Int :=
  ((LLL_USER ||| LLL_ERR ||| LLL_WARN ||| LLL_NOTICE : Nat) : Int)

/-- A command line on which `lws_cmdline_option` finds nothing. -/
def no_option : String → Option String :=
  fun _ => none

/-- A command line on which `lws_cmdline_option` finds the option `name` alone,
with `value` as the string it returns for it. -/
def one_option (name value : String) : String → Option String :=
  fun asked => if asked = name then some value else none

/-- The operations of this translation unit that run on the global state outside
the library: the signal handler, for any signal number, and `main`, in its two
halves around `websocket_runner.join()`. -/
inductive FlagWriter where
  | sigint_handler (sig : Int)
  | main_until_join (cmdline : String → Option String) (context : Bool) (cin : List String)
  | main_after_join

/-- The effect of an operation on the state. -/
def FlagWriter.apply : FlagWriter → State → State
  | .sigint_handler sig, s => Webs.sigint_handler sig s
  | .main_until_join cmdline context cin, s => (Webs.main_until_join cmdline context cin s).1
  | .main_after_join, s => (Webs.main_after_join s).1

/-- The states a sequence of operations goes through, starting after `s`. -/
def states_after (s : State) : List FlagWriter → List State
  | [] => []
  | op :: ops => op.apply s :: states_after (op.apply s) ops

/-- An environment that leaves the shared flag at `flag` by the time the
service loop has been joined. -/
def flag_left_at (flag : Int) : State → State :=
  fun s => { s with interrupted := flag }

/-! ## Helper lemmas -/

theorem console_loop_spec (cin : List String) (s : State) :
    (console_loop cin s).1.to_client = s.to_client ++ lines_before_empty cin ∧
    (console_loop cin s).1.trace = s.trace ++ forwarded_calls (lines_before_empty cin) ∧
    (console_loop cin s).2 = lines_after_empty cin ∧
    (console_loop cin s).1.interrupted = s.interrupted ∧
    (console_loop cin s).1.options = s.options ∧
    (console_loop cin s).1.from_client = s.from_client := by
  induction cin generalizing s with
  | nil => simp [console_loop, lines_before_empty, lines_after_empty, forwarded_calls]
  | cons line rest ih =>
    by_cases h : line.length = 0
    · simp [console_loop, lines_before_empty, lines_after_empty, forwarded_calls, h]
    · have := ih { s with
          cout := s.cout ++ [": "]
          to_client := s.to_client ++ [line]
          trace := s.trace ++
            [Event.to_client_push line, Event.lws_callback_on_writable_all_protocol] }
      simp only [lines_before_empty, lines_after_empty, forwarded_calls] at this ⊢
      simp [console_loop, h, this, List.append_assoc]

theorem main_init_globals (cmdline : String → Option String) (s : State) :
    (main_init cmdline s).1.interrupted = s.interrupted ∧
    (main_init cmdline s).1.options = s.options ∧
    (main_init cmdline s).1.to_client = s.to_client ∧
    (main_init cmdline s).1.from_client = s.from_client := by
  simp [main_init]

theorem main_until_join_globals (cmdline : String → Option String) (context : Bool)
    (cin : List String) (s : State) :
    (main_until_join cmdline context cin s).1.interrupted = s.interrupted ∧
    (main_until_join cmdline context cin s).1.options = s.options := by
  cases context
  · simp [main_until_join, main_init]
  · simp [main_until_join, main_init, console_loop_spec]

theorem main_until_join_reaches_join (cmdline : String → Option String)
    (cin : List String) (s : State) :
    (main_until_join cmdline true cin s).2 = none := by
  simp [main_until_join]

theorem main_after_join_flag (s : State) :
    (main_after_join s).1.interrupted = s.interrupted ∧
    (main_after_join s).2 = if s.interrupted = 2 then 0 else 1 := by
  by_cases h : s.interrupted = 2 <;> simp [main_after_join, exit_status, h]

theorem main_of_context (cmdline : String → Option String) (cin : List String)
    (env : State → State) (s : State) :
    main cmdline true cin env s = main_after_join (env (main_until_join cmdline true cin s).1) := by
  simp [main, main_until_join]

/-- The run condition written out: the status is non-negative and the flag is 0. -/
theorem run_condition_iff (n flag : Int) :
    run_condition n flag = true ↔ 0 ≤ n ∧ flag = 0 := by
  simp [run_condition]

/-- What the service loop returns when it stops: it was entered for the `k`-th
time with the status of the previous tick, ticked while the condition held, and
stopped at the first evaluation `j` where it failed. -/
theorem websocket_runner_loop_sound (interrupted lws_service : Nat → Int) :
    ∀ (fuel k : Nat) (calls : List Event) (last : Int),
      websocket_runner_loop interrupted lws_service fuel k (previous_status lws_service k)
        = some (calls, last) →
      ∃ d, calls = List.replicate d (Event.lws_service 1000) ∧
        last = previous_status lws_service (k + d) ∧
        (∀ i, i < d → run_condition (previous_status lws_service (k + i)) (interrupted (k + i)) = true) ∧
        run_condition (previous_status lws_service (k + d)) (interrupted (k + d)) = false := by
  intro fuel
  induction fuel with
  | zero => intro k calls last h; simp [websocket_runner_loop] at h
  | succ fuel ih =>
    intro k calls last h
    unfold websocket_runner_loop at h
    by_cases hc : run_condition (previous_status lws_service k) (interrupted k) = true
    · rw [if_pos hc] at h
      have hk : lws_service k = previous_status lws_service (k + 1) := rfl
      rw [hk] at h
      cases hrec : websocket_runner_loop interrupted lws_service fuel (k + 1)
          (previous_status lws_service (k + 1)) with
      | none => rw [hrec] at h; simp at h
      | some r =>
        obtain ⟨calls1, last1⟩ := r
        rw [hrec] at h
        simp only [Option.some.injEq, Prod.mk.injEq] at h
        obtain ⟨d, hcalls, hlast, hrun, hstop⟩ := ih (k + 1) calls1 last1 hrec
        refine ⟨d + 1, ?_, ?_, ?_, ?_⟩
        · rw [← h.1, hcalls]; rfl
        · rw [← h.2, hlast]; congr 1; omega
        · intro i hi
          cases i with
          | zero => simpa using hc
          | succ i =>
            have := hrun i (by omega)
            have e : k + (i + 1) = k + 1 + i := by omega
            rw [e]; exact this
        · have e : k + (d + 1) = k + 1 + d := by omega
          rw [e]; exact hstop
    · rw [if_neg hc] at h
      simp only [Option.some.injEq, Prod.mk.injEq] at h
      refine ⟨0, h.1.symm, ?_, ?_, ?_⟩
      · simpa using h.2.symm
      · intro i hi; omega
      · simpa using hc

/-- With more fuel than ticks to perform, the service loop returns. -/
theorem websocket_runner_loop_complete (interrupted lws_service : Nat → Int) :
    ∀ (d k fuel : Nat), d < fuel →
      (∀ i, i < d → run_condition (previous_status lws_service (k + i)) (interrupted (k + i)) = true) →
      run_condition (previous_status lws_service (k + d)) (interrupted (k + d)) = false →
      websocket_runner_loop interrupted lws_service fuel k (previous_status lws_service k)
        = some (List.replicate d (Event.lws_service 1000), previous_status lws_service (k + d)) := by
  intro d
  induction d with
  | zero =>
    intro k fuel hf _ hstop
    obtain ⟨fuel, rfl⟩ : ∃ f, fuel = f + 1 := ⟨fuel - 1, by omega⟩
    unfold websocket_runner_loop
    simp at hstop
    simp [hstop]
  | succ d ih =>
    intro k fuel hf hrun hstop
    obtain ⟨fuel, rfl⟩ : ∃ f, fuel = f + 1 := ⟨fuel - 1, by omega⟩
    unfold websocket_runner_loop
    have h0 := hrun 0 (by omega)
    simp only [Nat.add_zero] at h0
    rw [if_pos h0]
    have hk : lws_service k = previous_status lws_service (k + 1) := rfl
    rw [hk]
    have e : k + (d + 1) = k + 1 + d := by omega
    rw [ih (k + 1) fuel (by omega)
      (fun i hi => by
        have := hrun (i + 1) (by omega)
        have e2 : k + (i + 1) = k + 1 + i := by omega
        rw [e2] at this; exact this)
      (by rw [e] at hstop; exact hstop)]
    simp [List.replicate_succ, e]

/-! ## C1: the console input loop -/

/-- C1: for every console input and every initial outbound queue, the console
input loop stops at the first empty line (the end of input reads as one), leaves
the lines behind it unread, appends to `to_client` exactly the non-empty lines
in front of it, in order, and makes exactly the calls "push, wake" once per
appended line and none for the empty line; `main` does so from line 133 on. -/
theorem console_loop_forwards_lines (cin : List String) (s : State) :
    (console_loop cin s).1.to_client = s.to_client ++ lines_before_empty cin ∧
    (console_loop cin s).1.trace = s.trace ++ forwarded_calls (lines_before_empty cin) ∧
    (console_loop cin s).2 = lines_after_empty cin ∧
    (∀ line ∈ lines_before_empty cin, line.length ≠ 0) ∧
    (∀ cmdline,
      (main_until_join cmdline true cin s).1.to_client = s.to_client ++ lines_before_empty cin ∧
      (main_until_join cmdline true cin s).1.trace
        = (main_init cmdline s).1.trace
          ++ [ Event.lws_create_context (main_init cmdline s).2.info
             , Event.thread_start Thread.websocket_runner
             , Event.thread_start Thread.message_printer ]
          ++ forwarded_calls (lines_before_empty cin)) := by
  refine ⟨(console_loop_spec cin s).1, (console_loop_spec cin s).2.1,
    (console_loop_spec cin s).2.2.1, ?_, ?_⟩
  · intro line hline
    have := List.mem_takeWhile_imp hline
    simpa using this
  · intro cmdline
    simp [main_until_join, console_loop_spec, main_init, List.append_assoc]

/-! ## C2: the console bridge -/

/-- The console bridge removes at most the front message: on a non-empty queue
it pops the front and prints it, and leaves every later message queued. -/
theorem message_printer_pops_front (message : String) (rest : List String) (s : State) :
    (message_printer { s with from_client := message :: rest }).from_client = rest ∧
    (message_printer { s with from_client := message :: rest }).cerr
      = s.cerr ++ ["> " ++ message ++ "\n"] := by
  simp [message_printer]

/-- C2 (the code at the failing input): with "a" and "b" queued in `from_client`
the console bridge prints "> a" only and leaves "b" queued, so the queue is not
drained; on an empty queue it changes nothing. -/
theorem message_printer_leaves_backlog :
    (message_printer { State.init with from_client := ["a", "b"] }).from_client = ["b"] ∧
    (message_printer { State.init with from_client := ["a", "b"] }).cerr = ["> a\n"] ∧
    message_printer State.init = State.init := by
  decide

/-! ## C3: the service loop -/

/-- C3: for all sequences of flag values and tick statuses the service loop
ticks (`lws_service` with 1000 ms) exactly while the previous status is
non-negative and the flag is 0: a run that returns made `k` ticks where the
condition held at evaluations `0..k-1` and failed at `k`; whenever the condition
first fails at evaluation `k` the loop returns after exactly `k` ticks (any fuel
above `k`); and it makes no tick when the flag is non-zero at the start. -/
theorem websocket_runner_ticks (interrupted lws_service : Nat → Int) :
    (∀ fuel calls last,
      websocket_runner interrupted lws_service fuel = some (calls, last) →
      ∃ k, calls = List.replicate k (Event.lws_service 1000) ∧
        last = previous_status lws_service k ∧
        (∀ i, i < k → 0 ≤ previous_status lws_service i ∧ interrupted i = 0) ∧
        (previous_status lws_service k < 0 ∨ interrupted k ≠ 0)) ∧
    (∀ k, (∀ i, i < k → 0 ≤ previous_status lws_service i ∧ interrupted i = 0) →
      (previous_status lws_service k < 0 ∨ interrupted k ≠ 0) →
      ∀ fuel, k < fuel →
        websocket_runner interrupted lws_service fuel
          = some (List.replicate k (Event.lws_service 1000), previous_status lws_service k)) ∧
    (interrupted 0 ≠ 0 → ∀ fuel, 0 < fuel →
      websocket_runner interrupted lws_service fuel = some ([], 0)) := by
  have stop_iff : ∀ k, run_condition (previous_status lws_service k) (interrupted k) = false ↔
      (previous_status lws_service k < 0 ∨ interrupted k ≠ 0) := by
    intro k
    rw [← Bool.not_eq_true, run_condition_iff]
    constructor
    · intro h
      by_cases h0 : 0 ≤ previous_status lws_service k
      · exact Or.inr (fun hf => h ⟨h0, hf⟩)
      · exact Or.inl (by omega)
    · rintro (h | h) ⟨h1, h2⟩
      · omega
      · exact h h2
  refine ⟨?_, ?_, ?_⟩
  · intro fuel calls last h
    obtain ⟨d, hcalls, hlast, hrun, hstop⟩ :=
      websocket_runner_loop_sound interrupted lws_service fuel 0 calls last h
    refine ⟨d, hcalls, by simpa using hlast, ?_, ?_⟩
    · intro i hi
      have := hrun i hi
      rw [run_condition_iff] at this
      simpa using this
    · have := (stop_iff (0 + d)).1 hstop
      simpa using this
  · intro k hrun hstop fuel hfuel
    have := websocket_runner_loop_complete interrupted lws_service k 0 fuel hfuel
      (fun i hi => by
        rw [run_condition_iff]
        simpa using hrun i hi)
      (by
        rw [stop_iff]
        simpa using hstop)
    simpa [websocket_runner] using this
  · intro h fuel hfuel
    have := websocket_runner_loop_complete interrupted lws_service 0 0 fuel hfuel
      (fun i hi => by omega)
      (by
        rw [stop_iff]
        exact Or.inr h)
    simpa [websocket_runner, previous_status] using this

/-- Witness of C3: with the flag 0 at the first two evaluations and 1 at the
third, and ticks returning 0, the loop returns after two ticks; with the flag
already 1 at the start it returns without a tick. -/
theorem websocket_runner_ticks_witness :
    websocket_runner (fun k => if k < 2 then 0 else 1) (fun _ => 0) 5
      = some (List.replicate 2 (Event.lws_service 1000), 0) ∧
    websocket_runner (fun _ => 1) (fun _ => 0) 1 = some ([], 0) ∧
    (∃ k, [Event.lws_service 1000] = List.replicate k (Event.lws_service 1000) ∧
        (-1 : Int) = previous_status (fun _ => -1) k ∧
        (∀ i, i < k → 0 ≤ previous_status (fun _ => (-1 : Int)) i ∧ (fun _ => (0 : Int)) i = 0) ∧
        (previous_status (fun _ => (-1 : Int)) k < 0 ∨ (fun _ => (0 : Int)) k ≠ 0)) :=
  ⟨(websocket_runner_ticks (fun k => if k < 2 then 0 else 1) (fun _ => 0)).2.1 2
      (by decide) (by decide) 5 (by decide),
   (websocket_runner_ticks (fun _ => 1) (fun _ => 0)).2.2 (by decide) 1 (by decide),
   (websocket_runner_ticks (fun _ => 0) (fun _ => -1)).1 3 [Event.lws_service 1000] (-1)
      (by decide)⟩

/-! ## C4: the exit status -/

/-- C4: whatever the command line, the console input and the other threads do,
the status `main` returns after the joins is 0 when the flag is 2 in the state
at the return and 1 for every other value of the flag (0 and 1 included), and
that flag is the one the other threads left; when the context cannot be created
`main` returns 1 and the calls it has made contain no thread start. -/
theorem main_exit_status (cmdline : String → Option String) (cin : List String)
    (env : State → State) (s : State) :
    (main cmdline true cin env s).2
      = (if (main cmdline true cin env s).1.interrupted = 2 then 0 else 1) ∧
    ((main cmdline true cin env s).2 = 0 ↔ (main cmdline true cin env s).1.interrupted = 2) ∧
    (main cmdline true cin env s).1.interrupted
      = (env (main_until_join cmdline true cin s).1).interrupted ∧
    exit_status { s with interrupted := 0 } = 1 ∧
    exit_status { s with interrupted := 1 } = 1 ∧
    exit_status { s with interrupted := 2 } = 0 ∧
    (main cmdline false cin env s).2 = 1 ∧
    started_threads ((main cmdline false cin env s).1.trace.drop s.trace.length) = [] ∧
    (main cmdline false cin env s).1.cerr = s.cerr ++ ["lws init failed\n"] := by
  have hflag := main_after_join_flag (env (main_until_join cmdline true cin s).1)
  rw [main_of_context]
  refine ⟨?_, ?_, hflag.1, by simp [exit_status], by simp [exit_status],
    by simp [exit_status], ?_, ?_, ?_⟩
  · rw [hflag.1, hflag.2]
  · rw [hflag.1, hflag.2]
    by_cases h : (env (main_until_join cmdline true cin s).1).interrupted = 2 <;> simp [h]
  · simp [main, main_until_join]
  · simp [main, main_until_join, main_init, started_threads]
  · simp [main, main_until_join, main_init]

/-! ## C5: the flag never returns to 0 -/

/-- C5: from a state whose flag is 1 or 2, every operation of the program that
can write the flag (the signal handler for any signal number, and `main`) leaves
it different from 0, and so does every sequence of such operations, in each
state it goes through. -/
theorem flag_never_returns_to_running (s : State)
    (h : s.interrupted = 1 ∨ s.interrupted = 2) :
    (∀ op : FlagWriter, (op.apply s).interrupted ≠ 0) ∧
    (∀ ops : List FlagWriter, ∀ t ∈ states_after s ops, t.interrupted ≠ 0) := by
  have step : ∀ (op : FlagWriter) (t : State),
      (t.interrupted = 1 ∨ t.interrupted = 2) →
      ((op.apply t).interrupted = 1 ∨ (op.apply t).interrupted = 2) := by
    intro op t ht
    cases op with
    | sigint_handler sig => exact Or.inl rfl
    | main_until_join cmdline context cin =>
      simpa [FlagWriter.apply, main_until_join_globals] using ht
    | main_after_join =>
      simpa [FlagWriter.apply, main_after_join_flag] using ht
  refine ⟨fun op => ?_, fun ops => ?_⟩
  · rcases step op s h with h1 | h1 <;> rw [h1] <;> decide
  · induction ops generalizing s with
    | nil => intro t ht; simp [states_after] at ht
    | cons op ops ih =>
      intro t ht
      simp only [states_after, List.mem_cons] at ht
      rcases ht with rfl | ht
      · rcases step op s h with h1 | h1 <;> rw [h1] <;> decide
      · exact ih (op.apply s) (step op s h) t ht

/-- Witness of C5: from the flag at 2, a signal, and then the whole of `main`
with a second signal in between, never bring the flag back to 0. -/
theorem flag_never_returns_to_running_witness :
    ((flag_left_at 2 State.init).interrupted = 1 ∨ (flag_left_at 2 State.init).interrupted = 2) ∧
    ((FlagWriter.sigint_handler 15).apply (flag_left_at 2 State.init)).interrupted ≠ 0 ∧
    (∀ t ∈ states_after (flag_left_at 2 State.init)
        [ FlagWriter.main_until_join no_option true ["hello", ""]
        , FlagWriter.sigint_handler 2
        , FlagWriter.main_after_join ],
      t.interrupted ≠ 0) :=
  ⟨by decide,
   (flag_never_returns_to_running (flag_left_at 2 State.init) (by decide)).1
     (FlagWriter.sigint_handler 15),
   (flag_never_returns_to_running (flag_left_at 2 State.init) (by decide)).2 _⟩

/-! ## C6: the end of the console input and the flag -/

/-- C6 (counterexample): started with the flag at 0 and given an empty first
line, `main` reaches `websocket_runner.join()` with the flag still 0, not 2, so
the run condition of the service loop still holds. -/
theorem main_empty_line_keeps_flag_running :
    (main_until_join no_option true [""] State.init).2 = none ∧
    (main_until_join no_option true [""] State.init).1.interrupted = 0 ∧
    (main_until_join no_option true [""] State.init).1.interrupted ≠ 2 ∧
    run_condition 0 (main_until_join no_option true [""] State.init).1.interrupted = true := by
  decide

/-- C6 (amended): `main` never writes the flag: for every command line, console
input and state, when the console input loop has ended `main` is at
`websocket_runner.join()` with the flag exactly as it was, and the rest of
`main` leaves it as it was too; the run condition of the service loop is
therefore what it was, and when the flag was 0 it is still 0 and the condition
holds at the next check for every non-negative tick status. -/
theorem main_leaves_flag_as_it_was (cmdline : String → Option String) (cin : List String)
    (s : State) :
    (main_until_join cmdline true cin s).2 = none ∧
    (main_until_join cmdline true cin s).1.interrupted = s.interrupted ∧
    (main_after_join s).1.interrupted = s.interrupted ∧
    (∀ n : Int, run_condition n (main_until_join cmdline true cin s).1.interrupted
      = run_condition n s.interrupted) ∧
    (s.interrupted = 0 →
      (main_until_join cmdline true cin s).1.interrupted = 0 ∧
      ∀ n : Int, 0 ≤ n →
        run_condition n (main_until_join cmdline true cin s).1.interrupted = true) := by
  have hflag := (main_until_join_globals cmdline true cin s).1
  refine ⟨main_until_join_reaches_join cmdline cin s, hflag, (main_after_join_flag s).1,
    fun n => by rw [hflag], ?_⟩
  intro h
  refine ⟨by rw [hflag, h], fun n hn => ?_⟩
  rw [hflag, h, run_condition_iff]
  exact ⟨hn, rfl⟩

/-- Witness of C6 (amended): two lines and the end of input, from the initial
state, leave the flag at 0 and the run condition true for the status 7; from a
flag of 1 the same input leaves the flag at 1. -/
theorem main_leaves_flag_as_it_was_witness :
    State.init.interrupted = 0 ∧
    (main_until_join no_option true ["hello", "world"] State.init).2 = none ∧
    (main_until_join no_option true ["hello", "world"] State.init).1.interrupted = 0 ∧
    run_condition 7 (main_until_join no_option true ["hello", "world"] State.init).1.interrupted
      = true ∧
    (main_until_join no_option true ["hello", "world"] (flag_left_at 1 State.init)).1.interrupted
      = 1 :=
  ⟨rfl,
   (main_leaves_flag_as_it_was no_option ["hello", "world"] State.init).1,
   ((main_leaves_flag_as_it_was no_option ["hello", "world"] State.init).2.2.2.2 rfl).1,
   ((main_leaves_flag_as_it_was no_option ["hello", "world"] State.init).2.2.2.2 rfl).2 7
     (by decide),
   (main_leaves_flag_as_it_was no_option ["hello", "world"] (flag_left_at 1 State.init)).2.1⟩

/-! ## C7: a failed tick and the exit status -/

/-- C7 (counterexample): the first tick returns -1, so the service loop exits
after that tick with a negative status; the flag is 2 when `main` returns, and
`main` returns 0. -/
theorem failed_tick_exit_zero :
    websocket_runner (fun _ => 0) (fun _ => -1) 2 = some ([Event.lws_service 1000], -1) ∧
    (main no_option true [""] (flag_left_at 2) State.init).1.interrupted = 2 ∧
    (main no_option true [""] (flag_left_at 2) State.init).2 = 0 := by
  decide

/-- C7 (amended): when the service loop has exited because a tick returned a
negative status, the status `main` returns is non-zero exactly when the flag is
not 2 at the return, in particular when it is 0 or 1; the tick status does not
enter the exit status. -/
theorem failed_tick_exit_status (interrupted lws_service : Nat → Int) (fuel : Nat)
    (calls : List Event) (last : Int)
    (hrun : websocket_runner interrupted lws_service fuel = some (calls, last))
    (hneg : last < 0)
    (cmdline : String → Option String) (cin : List String) (env : State → State) (s : State) :
    (∃ k, calls = List.replicate (k + 1) (Event.lws_service 1000) ∧ lws_service k = last) ∧
    ((main cmdline true cin env s).2 ≠ 0 ↔ (main cmdline true cin env s).1.interrupted ≠ 2) ∧
    ((main cmdline true cin env s).1.interrupted = 0 ∨
      (main cmdline true cin env s).1.interrupted = 1 → (main cmdline true cin env s).2 = 1) := by
  have hflag := main_after_join_flag (env (main_until_join cmdline true cin s).1)
  refine ⟨?_, ?_, ?_⟩
  · obtain ⟨d, hcalls, hlast, -, -⟩ :=
      websocket_runner_loop_sound interrupted lws_service fuel 0 calls last hrun
    cases d with
    | zero =>
      simp [previous_status] at hlast
      omega
    | succ d => exact ⟨d, hcalls, by simpa [previous_status] using hlast.symm⟩
  · rw [main_of_context, hflag.1, hflag.2]
    by_cases h : (env (main_until_join cmdline true cin s).1).interrupted = 2 <;> simp [h]
  · rw [main_of_context, hflag.1, hflag.2]
    rintro (h | h) <;> simp [h]

/-- Witness of C7 (amended): the first tick returns -1 and the flag is 1 (set by
the signal handler) when `main` returns: the exit status is 1. -/
theorem failed_tick_exit_status_witness :
    websocket_runner (fun _ => 0) (fun _ => -1) 2 = some ([Event.lws_service 1000], -1) ∧
    (-1 : Int) < 0 ∧
    (main no_option true [""] (sigint_handler 2) State.init).2 = 1 :=
  ⟨by decide, by decide,
   (failed_tick_exit_status (fun _ => 0) (fun _ => -1) 2 [Event.lws_service 1000] (-1)
      (by decide) (by decide) no_option [""] (sigint_handler 2) State.init).2.2
      (Or.inr (by decide))⟩

/-! ## C8: the negotiation config -/

/-- C8: for every command line, the `info` that `main` builds and passes to
`lws_create_context` advertises no extension when `-n` is given and exactly the
one extension permessage-deflate, with the parameter string "permessage-deflate;
client_no_context_takeover; client_max_window_bits", when it is not; in both
cases its protocol table holds exactly one entry in front of the terminator. -/
theorem negotiation_config (cmdline : String → Option String) (context : Bool)
    (cin : List String) (s : State) :
    advertised_extensions (main_init cmdline s).2.info.extensions
      = (if (cmdline "-n").isSome then []
         else [ { name := some "permessage-deflate"
                , callback := some "lws_extension_callback_pm_deflate"
                , client_offer := some
                    "permessage-deflate; client_no_context_takeover; client_max_window_bits" } ]) ∧
    (advertised_extensions (main_init cmdline s).2.info.extensions).length
      = (if (cmdline "-n").isSome then 0 else 1) ∧
    (declared_protocols (main_init cmdline s).2.info.protocols).length = 1 ∧
    (main_init cmdline s).2.info.protocols.length = 2 ∧
    Event.lws_create_context (main_init cmdline s).2.info
      ∈ (main_until_join cmdline context cin s).1.trace := by
  have hext : advertised_extensions (some extensions)
      = [ { name := some "permessage-deflate"
          , callback := some "lws_extension_callback_pm_deflate"
          , client_offer := some
              "permessage-deflate; client_no_context_takeover; client_max_window_bits" } ] := by
    decide
  have hproto : (declared_protocols protocols).length = 1 ∧ protocols.length = 2 := by decide
  refine ⟨?_, ?_, ?_, ?_, ?_⟩
  · cases hn : cmdline "-n"
    · simpa [main_init, hn] using hext
    · simp [main_init, hn, advertised_extensions]
  · cases hn : cmdline "-n"
    · simp [main_init, hn, hext]
    · simp [main_init, hn, advertised_extensions]
  · simpa [main_init] using hproto.1
  · simpa [main_init] using hproto.2
  · cases context
    · simp [main_until_join]
    · simp [main_until_join, console_loop_spec]

/-! ## C9: the log level -/

/-- The log level `main` sets is decided by the option `-p` alone. -/
theorem main_init_log_level (cmdline : String → Option String) (s : State) :
    log_levels ((main_init cmdline s).1.trace.drop s.trace.length)
      = [match cmdline "-p" with
         | some p => atoi p
         | none => default_log_level] := by
  cases hp : cmdline "-p" <;>
    simp [main_init, hp, log_levels, default_log_level]

/-- C9 (the code at the failing inputs): with `-p 7681` alone on the command
line `main` passes 7681 to `lws_set_log_level` and not the default level, and
with `-l 7` alone it passes the default level and not 7. -/
theorem log_level_read_from_port_option :
    log_levels (main_init (one_option "-p" "7681") State.init).1.trace = [7681] ∧
    (main_init (one_option "-p" "7681") State.init).2.port = 7681 ∧
    log_levels (main_init (one_option "-l" "7") State.init).1.trace = [default_log_level] ∧
    default_log_level = 1031 ∧
    atoi "7" = 7 := by
  decide

/-! ## C10: the once option -/

/-- The global `options` is never written by `main`: the assignment of line 94
goes to the local of line 92. -/
theorem main_keeps_global_options (cmdline : String → Option String) (cin : List String)
    (context : Bool) (s : State) :
    (main_until_join cmdline context cin s).1.options = s.options ∧
    (main_after_join s).1.options = s.options := by
  exact ⟨(main_until_join_globals cmdline context cin s).2, by simp [main_after_join]⟩

/-- C10 (the code at the failing input): with `-o` on the command line the local
`options` of `main` gets bit 0, and the `int` that `pvo_options` points to, the
global `options`, is 0 in the state in which the context is created and still 0
when `main` waits for the service loop. -/
theorem once_bit_not_in_vhost_options :
    (main_init (one_option "-o" "") State.init).2.options = 1 ∧
    pvo_options.value = some PvoValue.addr_options ∧
    PvoValue.deref (main_init (one_option "-o" "") State.init).1 PvoValue.addr_options = some 0 ∧
    PvoValue.deref (main_until_join (one_option "-o" "") true [""] State.init).1
      PvoValue.addr_options = some 0 := by
  decide

end Webs
